import Mathlib

/-!
Verification of the FinProAI nutrition-resolution pipeline and data-access
layer against its natural-language specification.

The Python sources (deepseek_api.py, database.py) are shallowly embedded:
Python dicts become association lists over a JSON-value type, Python floats
become exact rationals, fallible statements become Except values, and the
single outbound HTTP call of analyze_food_nutrition is abstracted by an
outcome type enumerating the branch conditions the source code tests
(exception raised, status code, body shape, json decode result).
-/

/-- JSON-style dynamic value, the type of Python dict entries manipulated by
deepseek_api.py.  Nested arrays and objects do not occur as field values on
any path the embedded functions inspect: every operation below treats them
exactly like the other non-string cases (a TypeError in the portion
adjuster, a zero read in extract_number), so a single non-string numeric
constructor together with bool and null covers the behaviours. -/
inductive JVal
  | jstr (s : String)
  | jnum (q : Rat)
  | jbool (b : Bool)
  | jnull
deriving DecidableEq, Repr

/-- A Python dict with string keys, in insertion order. -/
abbrev PyDict := List (String × JVal)

/-- Python dict lookup: value at the key, if present. -/
def dictLookup : PyDict → String → Option JVal
  | [], _ => none
  | (k, v) :: rest, key => if key = k then some v else dictLookup rest key

/-- Python dict assignment d[key] = v: replaces the value in place when the
key is present, otherwise appends the new pair at the end. -/
def dictSet : PyDict → String → JVal → PyDict
  | [], key, v => [(key, v)]
  | (k, w) :: rest, key, v =>
      if key = k then (k, v) :: rest else (k, w) :: dictSet rest key v

/-- Python dict get with default. -/
def dictGetD (d : PyDict) (key : String) (dflt : JVal) : JVal :=
  (dictLookup d key).getD dflt

/-- ASCII lowering of a string, character by character: the behaviour of
Python str.lower on the ASCII keywords and portion labels compared here. -/
def strLower (s : String) : String :=
  String.mk (s.data.map Char.toLower)

/-- Whether the pattern is an initial segment of the text. -/
def startsWithCh : List Char → List Char → Bool
  | _, [] => true
  | [], _ :: _ => false
  | c :: cs, p :: ps => c == p && startsWithCh cs ps

/-- Whether the pattern occurs anywhere in the text. -/
def containsCh : List Char → List Char → Bool
  | [], pat => pat.isEmpty
  | c :: cs, pat => startsWithCh (c :: cs) pat || containsCh cs pat

/-- Python substring test w in s. -/
def strContains (s w : String) : Bool :=
  containsCh s.data w.data

/-- Python str.replace for a non-empty pattern: every non-overlapping
occurrence, scanned left to right, is replaced.  The fuel argument starts
at the text length, which one character or one whole match consumes per
step, so it never runs out before the text does. -/
def replaceChAux (pat rep : List Char) : Nat → List Char → List Char
  | _, [] => []
  | 0, s => s
  | fuel + 1, c :: cs =>
      if !pat.isEmpty && startsWithCh (c :: cs) pat then
        rep ++ replaceChAux pat rep fuel (List.drop (pat.length - 1) cs)
      else c :: replaceChAux pat rep fuel cs

/-- Python str.replace(pat, rep), pat non-empty at every call site below. -/
def strReplace (s pat rep : String) : String :=
  String.mk (replaceChAux pat.data rep.data s.data.length s.data)

/-- The ASCII whitespace characters stripped by Python str.strip. -/
def isSpaceCh (c : Char) : Bool :=
  c == ' ' || c == '\t' || c == '\n' || c == '\r' || c == '\x0b' || c == '\x0c'

/-- Python str.strip(). -/
def strStrip (s : String) : String :=
  String.mk (((s.data.dropWhile isSpaceCh).reverse.dropWhile isSpaceCh).reverse)

/-- Numeric value of a list of ASCII digit characters. -/
def natOfDigits (l : List Char) : Nat :=
  l.foldl (fun a c => a * 10 + (c.toNat - 48)) 0

/-- The token matched by the regular expression for a decimal number
(digits, an optional dot, then digits) at a position known to start with a
digit. -/
def numTokenAt (l : List Char) : List Char :=
  let ds := l.takeWhile Char.isDigit
  match l.dropWhile Char.isDigit with
  | '.' :: r2 => ds ++ '.' :: r2.takeWhile Char.isDigit
  | _ => ds

/-- First match of the number regex in a character list. -/
def findFirstNumAux : List Char → Option (List Char)
  | [] => none
  | c :: cs => if c.isDigit then some (numTokenAt (c :: cs)) else findFirstNumAux cs

/-- First match of the number regex in a string: the first maximal run of
digits with at most one decimal point, as searched for by re.findall in
deepseek_api.py. -/
def findFirstNum (s : String) : Option String :=
  (findFirstNumAux s.data).map String.mk

/-- Exact value of a matched number token (digits, optional dot, digits),
the result of Python float() on such a token. -/
def parseNumTok (t : String) : Rat :=
  let cs := t.data
  let intPart := cs.takeWhile Char.isDigit
  let frac :=
    match cs.dropWhile Char.isDigit with
    | '.' :: r2 => r2.takeWhile Char.isDigit
    | _ => []
  (natOfDigits intPart : Rat) + (natOfDigits frac : Rat) / (10 : Rat) ^ frac.length

/-- Rounding used when the source formats a float with zero decimals.  The
embedding computes with exact rationals and rounds half away from zero;
this agrees with the source's float formatting at every value evaluated in
the theorems below. -/
def roundHalfUpNat (q : Rat) : Nat :=
  (Rat.floor (q + 1 / 2)).toNat

/-- Python format specifier .0f on a non-negative value. -/
def formatRat0 (q : Rat) : String :=
  toString (roundHalfUpNat q)

/-- Python format specifier .1f on a non-negative value. -/
def formatRat1 (q : Rat) : String :=
  let n := roundHalfUpNat (q * 10)
  toString (n / 10) ++ "." ++ toString (n % 10)

/-- The fields of splitting a character list at dots. -/
def splitDotAux : List Char → List Char → List (List Char)
  | [], acc => [acc.reverse]
  | c :: cs, acc =>
      if c == '.' then acc.reverse :: splitDotAux cs [] else splitDotAux cs (c :: acc)

/-- Python float() applied to a string consisting of digits and dots, as in
database.extract_number: defined when the string has at least one digit and
at most one dot. -/
def pyFloatOfDigitsDots (s : String) : Option Rat :=
  match splitDotAux s.data [] with
  | [a] =>
      if !a.isEmpty && a.all Char.isDigit then some (natOfDigits a : Rat)
      else none
  | [a, b] =>
      if !(a.isEmpty && b.isEmpty) && a.all Char.isDigit && b.all Char.isDigit then
        some ((natOfDigits a : Rat) + (natOfDigits b : Rat) / (10 : Rat) ^ b.length)
      else none
  | _ => none

/-- deepseek_api.extract_number: numbers pass through (a Python bool is an
int instance, so True reads as 1.0); for text, the first regex number match
is parsed, with 0.0 when there is no match; anything else reads 0.0. -/
def DeepseekApi.extract_number (value : JVal) : Rat :=
  match value with
  | .jnum q => q
  | .jbool b => if b then 1 else 0
  | .jstr s =>
      match findFirstNum s with
      | some t => parseNumTok t
      | none => 0
  | .jnull => 0

/-- database.extract_number: numbers pass through; for text, every character
other than a digit or a dot is removed from the whole string and the result
is given to float(), with 0.0 on an empty or unparsable remainder. -/
def Database.extract_number (value : JVal) : Rat :=
  match value with
  | .jnum q => q
  | .jbool b => if b then 1 else 0
  | .jstr s =>
      match pyFloatOfDigitsDots (String.mk (s.data.filter (fun c => c.isDigit || c == '.'))) with
      | some q => q
      | none => 0
  | .jnull => 0

/-- Errors a statement of the embedded Python can raise. -/
inductive PyErr
  | netError
  | bodyError
  | nameError
  | typeError
deriving DecidableEq, Repr

/-- The portion-factor table of adjust_for_portion, in source order. -/
def portion_factors : List (String × Rat) :=
  [("small", 0.7), ("normal", 1), ("large", 1.3),
   ("kecil", 0.7), ("sedang", 1), ("besar", 1.3)]

/-- The portion-factor table of get_fallback_nutrition, in source order. -/
def fallback_portion_factors : List (String × Rat) :=
  [("small", 0.7), ("kecil", 0.7), ("normal", 1), ("sedang", 1),
   ("large", 1.3), ("besar", 1.3)]

/-- Python dict get on a factor table. -/
def lookupRat : List (String × Rat) → String → Option Rat
  | [], _ => none
  | (k, v) :: rest, key => if key = k then some v else lookupRat rest key

/-- portion_factors.get(portion_size.lower(), 1.0) in adjust_for_portion. -/
def factorOf (portion_size : String) : Rat :=
  (lookupRat portion_factors (strLower portion_size)).getD 1

/-- portion_factors.get(portion_size.lower(), 1.0) in get_fallback_nutrition. -/
def fallbackFactorOf (portion_size : String) : Rat :=
  (lookupRat fallback_portion_factors (strLower portion_size)).getD 1

/-- The fields adjusted by adjust_for_portion, in source order. -/
def nutrient_fields : List String :=
  ["calories", "protein", "fat", "carbs", "fiber", "sugar"]

/-- The per-field body of the adjust_for_portion loop on a string value:
first number match scaled by the factor, reformatted to one decimal,
followed by a space and the value with every occurrence of the matched
token removed and stripped; values without a number match are left alone. -/
def adjustValue (factor : Rat) (v : String) : String :=
  match findFirstNum v with
  | some n => formatRat1 (parseNumTok n * factor) ++ " " ++ strStrip (strReplace v n "")
  | none => v

/-- One iteration of the adjust_for_portion loop: absent fields are skipped,
string values are rewritten via adjustValue, and a present non-string value
raises TypeError (re.findall on a non-string argument). -/
def adjustStep (factor : Rat) (d : PyDict) (field : String) : Except PyErr PyDict :=
  match dictLookup d field with
  | none => Except.ok d
  | some (JVal.jstr v) => Except.ok (dictSet d field (JVal.jstr (adjustValue factor v)))
  | some _ => Except.error PyErr.typeError

/-- The adjust_for_portion loop over a list of fields. -/
def adjustFields (factor : Rat) : PyDict → List String → Except PyErr PyDict
  | d, [] => Except.ok d
  | d, f :: rest =>
      match adjustStep factor d f with
      | Except.ok d2 => adjustFields factor d2 rest
      | Except.error e => Except.error e

/-- DeepSeekNutritionAPI.adjust_for_portion: when the portion factor is
exactly 1.0 the dict is returned untouched; otherwise each nutrient field is
rescaled in place. -/
def adjust_for_portion (nutrition_data : PyDict) (portion_size : String) : Except PyErr PyDict :=
  if factorOf portion_size = 1 then Except.ok nutrition_data
  else adjustFields (factorOf portion_size) nutrition_data nutrient_fields

/-- Keyword sets of get_fallback_nutrition, in source order. -/
def grainWords : List String := ["nasi", "rice", "roti", "bread", "mie", "noodle"]

/-- Meat and fish keywords of get_fallback_nutrition. -/
def meatWords : List String := ["ayam", "chicken", "daging", "meat", "ikan", "fish"]

/-- Vegetable and fruit keywords of get_fallback_nutrition. -/
def vegWords : List String := ["sayur", "vegetable", "salad", "buah", "fruit"]

/-- Fried-food keywords of get_fallback_nutrition. -/
def friedWords : List String := ["goreng", "fried", "krispi"]

/-- Python any(word in food_lower for word in words). -/
def matchAny (food_lower : String) (words : List String) : Bool :=
  words.any (fun w => strContains food_lower w)

/-- The four base macro values of a fallback category. -/
structure BaseNutrition where
  calories : Rat
  protein : Rat
  fat : Rat
  carbs : Rat
deriving DecidableEq, Repr

/-- Category selection of get_fallback_nutrition: the four keyword sets are
tested in source order, first match wins, and no match falls through to the
generic base. -/
def fallbackBase (food_lower : String) : BaseNutrition :=
  if matchAny food_lower grainWords then ⟨250, 8, 5, 45⟩
  else if matchAny food_lower meatWords then ⟨200, 25, 10, 0⟩
  else if matchAny food_lower vegWords then ⟨80, 3, 1, 15⟩
  else if matchAny food_lower friedWords then ⟨300, 15, 20, 20⟩
  else ⟨200, 10, 8, 25⟩

/-- DeepSeekNutritionAPI.get_fallback_nutrition.  The now argument stands
for datetime.now().isoformat(), available here through the function-local
datetime binding made at deepseek_api.py line 188. -/
def get_fallback_nutrition (food_name portion_size now : String) : PyDict :=
  let base := fallbackBase (strLower food_name)
  let factor := fallbackFactorOf portion_size
  [("food_name", JVal.jstr food_name),
   ("portion_size", JVal.jstr portion_size),
   ("calories", JVal.jstr (formatRat0 (base.calories * factor) ++ " kcal")),
   ("protein", JVal.jstr (formatRat0 (base.protein * factor) ++ " g")),
   ("fat", JVal.jstr (formatRat0 (base.fat * factor) ++ " g")),
   ("carbs", JVal.jstr (formatRat0 (base.carbs * factor) ++ " g")),
   ("fiber", JVal.jstr (formatRat0 (3 * factor) ++ " g")),
   ("sugar", JVal.jstr (formatRat0 (5 * factor) ++ " g")),
   ("sodium", JVal.jstr (formatRat0 (200 * factor) ++ " mg")),
   ("notes", JVal.jstr ("Estimasi untuk " ++ food_name ++ " (porsi " ++ portion_size ++ ")")),
   ("source", JVal.jstr "fallback_estimation"),
   ("analyzed_at", JVal.jstr now)]

/-- DeepSeekNutritionAPI.extract_nutrition_from_text.  The function body
first evaluates a dict literal whose analyzed_at entry calls
datetime.now(): the name datetime is unbound in this function's scope (the
module imports only requests, json, re, typing and os, and the
function-local datetime imports at deepseek_api.py lines 102 and 188 bind
the name only inside those two other methods), so evaluating the literal
raises NameError before the regex extraction loop can run, on every
input. -/
def extract_nutrition_from_text (_text _food_name _portion_size : String) : Except PyErr PyDict :=
  Except.error PyErr.nameError

/-- Outcome of json.loads on the fence-stripped response content. -/
inductive DecodeResult
  | fail
  | dict (d : PyDict)
  | nonDict
deriving Repr

/-- What became of the response body of the 200 branch: either
response.json() / the choices-message-content extraction raised, or a
string content was obtained whose fence-stripped form json.loads maps to
the recorded DecodeResult.  The content component carries the
fence-stripped text handed to extract_nutrition_from_text on decode
failure. -/
inductive BodyResult
  | badBody
  | content (text : String) (dr : DecodeResult)
deriving Repr

/-- Outcome of the single requests.post call in analyze_food_nutrition:
either the request itself raised (timeout, connection error), or a response
with the given status code came back.  Quantifying over this type covers
every credential state, network failure, status code and response body the
claim enumerates. -/
inductive CallOutcome
  | exc
  | resp (status_code : Nat) (body : BodyResult)
deriving Repr

/-- DeepSeekNutritionAPI.is_available on the api_key attribute of self. -/
def is_available (api_key : Option String) : Bool :=
  match api_key with
  | none => false
  | some k => decide (10 < k.length)

/-- The try-block of analyze_food_nutrition.  A non-200 status returns the
fallback bundle directly (no exception); a 200 response has its content
decoded, a decode failure is handed to extract_nutrition_from_text (which
raises NameError), a decoded non-dict raises TypeError at the membership
test or item assignment, and a decoded dict is portion-adjusted and given
an analyzed_at timestamp. -/
def analyzeTry (food_name portion_size now : String) : CallOutcome → Except PyErr PyDict
  | CallOutcome.exc => Except.error PyErr.netError
  | CallOutcome.resp code body =>
    if code = 200 then
      match body with
      | BodyResult.badBody => Except.error PyErr.bodyError
      | BodyResult.content text dr =>
        match dr with
        | DecodeResult.fail => extract_nutrition_from_text text food_name portion_size
        | DecodeResult.nonDict => Except.error PyErr.typeError
        | DecodeResult.dict d =>
          match adjust_for_portion d portion_size with
          | Except.error e => Except.error e
          | Except.ok d2 => Except.ok (dictSet d2 "analyzed_at" (JVal.jstr now))
    else Except.ok (get_fallback_nutrition food_name portion_size now)

/-- DeepSeekNutritionAPI.analyze_food_nutrition: without a usable credential
the local fallback is returned at once; otherwise the try-block runs and
any exception it raises is caught by the blanket except, which also returns
the local fallback. -/
def analyze_food_nutrition (api_key : Option String) (food_name portion_size now : String)
    (outcome : CallOutcome) : Except PyErr PyDict :=
  if is_available api_key = false then
    Except.ok (get_fallback_nutrition food_name portion_size now)
  else
    match analyzeTry food_name portion_size now outcome with
    | Except.ok d => Except.ok d
    | Except.error _ => Except.ok (get_fallback_nutrition food_name portion_size now)

/-- The hardcoded credential installed by DeepSeekNutritionAPI.__init__. -/
def hardcodedApiKey : String := "sk-404f52b1127e49009596bb9dfadb3e95"

/-- The state built by DeepSeekNutritionAPI.__init__. -/
structure DeepSeekNutritionAPI where
  api_url : String
  api_key : Option String
deriving Repr

/-- DeepSeekNutritionAPI.__init__: whatever api_key argument is supplied,
the attribute is assigned the hardcoded literal. -/
def DeepSeekNutritionAPI.init (_api_key_arg : Option String) : DeepSeekNutritionAPI :=
  { api_url := "https://api.deepseek.com/chat/completions"
    api_key := some hardcodedApiKey }

/-- Multiplicity of a prime-like factor p in n, with explicit fuel. -/
def powCountAux (p : Nat) : Nat → Nat → Nat
  | 0, _ => 0
  | fuel + 1, n => if n % p = 0 && n ≠ 0 && n ≠ 1 then 1 + powCountAux p fuel (n / p) else 0

/-- Python str() of a non-negative float holding a terminating decimal, as
produced when get_daily_entries rebuilds a nutrition dict from the REAL
columns (those columns always hold extract_number results, whose
denominators divide a power of ten).  Non-terminating rationals, which do
not arise there, are rendered as a fraction. -/
def decRepr (q : Rat) : String :=
  let c2 := powCountAux 2 q.den q.den
  let c5 := powCountAux 5 q.den q.den
  let k := max c2 c5
  if q.den = 2 ^ c2 * 5 ^ c5 then
    if k = 0 then toString q.num ++ ".0"
    else
      let n := (q * (10 : Rat) ^ k).num.natAbs
      let fracDigits := toString (n % 10 ^ k)
      toString (n / 10 ^ k) ++ "." ++
        String.mk (List.replicate (k - fracDigits.length) '0') ++ fracDigits
  else toString q.num ++ "/" ++ toString q.den

/-- A row of the daily_entries table, with the columns of the schema in
database.py.  The nutrition_data TEXT column holds json.dumps of the entry's
nutrition dict; it is modelled by the dict itself (json round-trips it), with
none standing for SQL NULL.  created_at is modelled by a store clock that
increases at each insertion, which realises ORDER BY created_at. -/
structure EntryRow where
  id : Nat
  user_id : Nat
  date : String
  food_name : String
  portion : String
  calories : Rat
  protein : Rat
  fat : Rat
  carbs : Rat
  water_ml : Int
  exercise_min : Int
  nutrition_data : Option PyDict
  created_at : Nat
deriving Repr

/-- The SQLite datastore behind NutritionDatabase: the users table (rows as
dicts, since update_user_profile assigns dynamic column sets), the
daily_entries table, the AUTOINCREMENT counters, and the timestamp clock. -/
structure DbStore where
  users : List PyDict
  entries : List EntryRow
  nextUserId : Nat
  nextEntryId : Nat
  clock : Nat

/-- A fresh users row as inserted by create_user, with the schema's column
defaults; now stands for CURRENT_TIMESTAMP. -/
def newUserRow (uid : Nat) (email password_hash name now : String) : PyDict :=
  [("id", JVal.jnum uid),
   ("email", JVal.jstr email),
   ("password_hash", JVal.jstr password_hash),
   ("name", JVal.jstr name),
   ("weight", JVal.jnum 65),
   ("height", JVal.jnum 170),
   ("age", JVal.jnum 25),
   ("activity_level", JVal.jstr "medium"),
   ("goal", JVal.jstr "maintain"),
   ("created_at", JVal.jstr now),
   ("last_login", JVal.jnull)]

/-- NutritionDatabase.create_user.  hashFn abstracts
hashlib.sha256(...).hexdigest(); backendFail models the sqlite layer
raising on this call, which the blanket except turns into None.  A
duplicate email violates the UNIQUE constraint, raising IntegrityError,
which the first except clause also turns into None. -/
def create_user (hashFn : String → String) (st : DbStore) (backendFail : Bool)
    (email password name now : String) : Option Nat × DbStore :=
  if backendFail then (none, st)
  else if st.users.any (fun u => decide (dictLookup u "email" = some (JVal.jstr email))) then
    (none, st)
  else
    let uid := st.nextUserId
    (some uid,
     { st with users := st.users ++ [newUserRow uid email (hashFn password) name now],
               nextUserId := uid + 1,
               clock := st.clock + 1 })

/-- Columns selected by authenticate_user and get_user_profile. -/
def profileCols : List String :=
  ["id", "email", "name", "weight", "height", "age", "activity_level", "goal"]

/-- The row projection performed by the SELECT column list. -/
def projectProfile (u : PyDict) : PyDict :=
  profileCols.filterMap (fun k => (dictLookup u k).map (fun w => (k, w)))

/-- NutritionDatabase.authenticate_user: the row whose email and
password_hash both match is fetched; on a hit last_login is updated and the
profile columns are returned, on a miss or a datastore error None is
returned. -/
def authenticate_user (hashFn : String → String) (st : DbStore) (backendFail : Bool)
    (email password now : String) : Option PyDict × DbStore :=
  if backendFail then (none, st)
  else
    match st.users.find? (fun u =>
        decide (dictLookup u "email" = some (JVal.jstr email)) &&
        decide (dictLookup u "password_hash" = some (JVal.jstr (hashFn password)))) with
    | some u =>
        (some (projectProfile u),
         { st with users := st.users.map (fun v =>
             if dictLookup v "id" = dictLookup u "id" then
               dictSet v "last_login" (JVal.jstr now)
             else v) })
    | none => (none, st)

/-- The allow-list of update_user_profile. -/
def allowed_fields : List String :=
  ["name", "weight", "height", "age", "activity_level", "goal"]

/-- NutritionDatabase.update_user_profile: kwargs outside the allow-list are
dropped; an empty remaining set returns False before touching the store; the
UPDATE reports success exactly when a row with the id existed (rowcount);
a datastore error returns False. -/
def update_user_profile (st : DbStore) (backendFail : Bool) (user_id : Nat)
    (kwargs : List (String × JVal)) : Bool × DbStore :=
  if backendFail then (false, st)
  else
    let updates := kwargs.filter (fun kv => allowed_fields.contains kv.1)
    if updates.isEmpty then (false, st)
    else if st.users.any (fun u => decide (dictLookup u "id" = some (JVal.jnum user_id))) then
      (true,
       { st with users := st.users.map (fun u =>
           if dictLookup u "id" = some (JVal.jnum user_id) then
             updates.foldl (fun acc kv => dictSet acc kv.1 kv.2) u
           else u) })
    else (false, st)

/-- The entry_data dict passed to add_daily_entry, with exactly the keys the
function reads; a missing field models an absent key. -/
structure EntryData where
  date : Option String
  food : Option String
  portion : Option String
  portion_grams : Option Int
  nutrition : Option PyDict
  water : Option Int
  exercise : Option Int

/-- NutritionDatabase.add_daily_entry; now stands for
datetime.now().strftime of the current day.  The numeric columns are filled
with database.extract_number of the nutrition dict's fields, and the
nutrition dict is stored in the nutrition_data column as JSON text. -/
def add_daily_entry (st : DbStore) (backendFail : Bool) (user_id : Nat)
    (entry_data : EntryData) (now : String) : Bool × DbStore :=
  if backendFail then (false, st)
  else
    let date := entry_data.date.getD now
    let food_name := entry_data.food.getD "Unknown"
    let portion :=
      match entry_data.portion with
      | some p => p
      | none =>
        match entry_data.portion_grams with
        | some g => toString g ++ "g"
        | none => "Normal"
    let nutrition := entry_data.nutrition.getD []
    let row : EntryRow :=
      { id := st.nextEntryId,
        user_id := user_id,
        date := date,
        food_name := food_name,
        portion := portion,
        calories := Database.extract_number (dictGetD nutrition "calories" (JVal.jstr "0 kcal")),
        protein := Database.extract_number (dictGetD nutrition "protein" (JVal.jstr "0 g")),
        fat := Database.extract_number (dictGetD nutrition "fat" (JVal.jstr "0 g")),
        carbs := Database.extract_number (dictGetD nutrition "carbs" (JVal.jstr "0 g")),
        water_ml := entry_data.water.getD 0,
        exercise_min := entry_data.exercise.getD 0,
        nutrition_data := some nutrition,
        created_at := st.clock }
    (true,
     { st with entries := st.entries ++ [row],
               nextEntryId := st.nextEntryId + 1,
               clock := st.clock + 1 })

/-- Descending comparator for ORDER BY created_at DESC. -/
def geCreated (a b : EntryRow) : Bool :=
  b.created_at ≤ a.created_at

/-- Descending comparator for ORDER BY date DESC, created_at DESC. -/
def geDateCreated (a b : EntryRow) : Bool :=
  match compare a.date b.date with
  | Ordering.gt => true
  | Ordering.lt => false
  | Ordering.eq => b.created_at ≤ a.created_at

/-- Insertion step of the ORDER BY sort. -/
def insertDesc (ge : EntryRow → EntryRow → Bool) : EntryRow → List EntryRow → List EntryRow
  | r, [] => [r]
  | r, x :: xs => if ge r x then r :: x :: xs else x :: insertDesc ge r xs

/-- Insertion sort realising the ORDER BY clauses of get_daily_entries. -/
def sortDesc (ge : EntryRow → EntryRow → Bool) : List EntryRow → List EntryRow
  | [] => []
  | r :: rs => insertDesc ge r (sortDesc ge rs)

/-- dict(row) for a daily_entries row, as built by get_daily_entries; the
nutrition_data TEXT column is carried separately in EntryOut. -/
def rowToDict (r : EntryRow) : PyDict :=
  [("id", JVal.jnum r.id),
   ("user_id", JVal.jnum r.user_id),
   ("date", JVal.jstr r.date),
   ("food_name", JVal.jstr r.food_name),
   ("portion", JVal.jstr r.portion),
   ("calories", JVal.jnum r.calories),
   ("protein", JVal.jnum r.protein),
   ("fat", JVal.jnum r.fat),
   ("carbs", JVal.jnum r.carbs),
   ("water_ml", JVal.jnum r.water_ml),
   ("exercise_min", JVal.jnum r.exercise_min),
   ("created_at", JVal.jnum r.created_at)]

/-- The nutrition dict attached to each returned entry: json.loads of the
stored nutrition_data when the column is non-NULL (json.dumps always writes
a truthy string), else a dict rebuilt from the numeric columns with
str(float) formatting. -/
def entryNutrition (r : EntryRow) : PyDict :=
  match r.nutrition_data with
  | some nd => nd
  | none =>
      [("calories", JVal.jstr (decRepr r.calories ++ " kcal")),
       ("protein", JVal.jstr (decRepr r.protein ++ " g")),
       ("fat", JVal.jstr (decRepr r.fat ++ " g")),
       ("carbs", JVal.jstr (decRepr r.carbs ++ " g"))]

/-- One element of the list returned by get_daily_entries: the row columns
plus the parsed nutrition dict stored under the nutrition key. -/
structure EntryOut where
  fields : PyDict
  nutrition : PyDict

/-- NutritionDatabase.get_daily_entries: rows of the user, optionally
filtered by date, in ORDER BY order, each with its nutrition dict; a
datastore (or json) error yields the empty list. -/
def get_daily_entries (st : DbStore) (backendFail : Bool) (user_id : Nat)
    (date : Option String) : List EntryOut :=
  if backendFail then []
  else
    let rows :=
      match date with
      | some d =>
          sortDesc geCreated
            (st.entries.filter (fun r => decide (r.user_id = user_id) && decide (r.date = d)))
      | none =>
          sortDesc geDateCreated (st.entries.filter (fun r => decide (r.user_id = user_id)))
    rows.map (fun r => { fields := rowToDict r, nutrition := entryNutrition r })

/-- NutritionDatabase.delete_entry: the DELETE removes the (entry_id,
user_id) row, success is rowcount being positive, and a datastore error
returns False. -/
def delete_entry (st : DbStore) (backendFail : Bool) (user_id entry_id : Nat) : Bool × DbStore :=
  if backendFail then (false, st)
  else
    let hit := st.entries.any (fun r => decide (r.id = entry_id) && decide (r.user_id = user_id))
    (hit,
     { st with entries :=
         st.entries.filter (fun r => !(decide (r.id = entry_id) && decide (r.user_id = user_id))) })

/-- Looking up the key just assigned finds the new value. -/
lemma dictLookup_dictSet_self (d : PyDict) (k : String) (v : JVal) :
    dictLookup (dictSet d k v) k = some v := by
  induction d with
  | nil => simp [dictSet, dictLookup]
  | cons p rest ih =>
      obtain ⟨k0, w⟩ := p
      by_cases h : k = k0
      · subst h; simp [dictSet, dictLookup]
      · simp [dictSet, dictLookup, h, ih]

/-- Assignment at one key leaves every other key's lookup unchanged. -/
lemma dictLookup_dictSet_ne (d : PyDict) (k k2 : String) (v : JVal) (h : k2 ≠ k) :
    dictLookup (dictSet d k v) k2 = dictLookup d k2 := by
  induction d with
  | nil => simp [dictSet, dictLookup, h]
  | cons p rest ih =>
      obtain ⟨k0, w⟩ := p
      by_cases h0 : k = k0
      · subst h0; simp [dictSet, dictLookup, h]
      · simp [dictSet, dictLookup, h0, ih]

/-- The values of a dict sit under jstr at every field of a given list. -/
def strValued (d : PyDict) (l : List String) : Prop :=
  ∀ g ∈ l, ∀ w, dictLookup d g = some w → ∃ s, w = JVal.jstr s

/-- A loop iteration of adjust_for_portion does not raise when the field is
absent or string-valued. -/
lemma adjustStep_ok (factor : Rat) (d : PyDict) (g : String)
    (h : ∀ w, dictLookup d g = some w → ∃ s, w = JVal.jstr s) :
    ∃ d1, adjustStep factor d g = Except.ok d1 := by
  unfold adjustStep
  cases hval : dictLookup d g with
  | none => exact ⟨d, rfl⟩
  | some w =>
      obtain ⟨s, rfl⟩ := h w hval
      exact ⟨_, rfl⟩

/-- A successful loop iteration on one field leaves the other keys alone. -/
lemma adjustStep_ok_lookup_ne (factor : Rat) (d d1 : PyDict) (g k : String)
    (hstep : adjustStep factor d g = Except.ok d1) (hk : k ≠ g) :
    dictLookup d1 k = dictLookup d k := by
  unfold adjustStep at hstep
  cases hval : dictLookup d g with
  | none =>
      rw [hval] at hstep
      simp only [Except.ok.injEq] at hstep
      subst hstep; rfl
  | some w =>
      cases w with
      | jstr v =>
          rw [hval] at hstep
          simp only [Except.ok.injEq] at hstep
          subst hstep
          exact dictLookup_dictSet_ne d g k _ hk
      | jnum q => rw [hval] at hstep; simp at hstep
      | jbool b => rw [hval] at hstep; simp at hstep
      | jnull => rw [hval] at hstep; simp at hstep

/-- A successful loop iteration preserves string-valuedness. -/
lemma strValued_adjustStep (factor : Rat) (d d1 : PyDict) (g : String) (l : List String)
    (hd : strValued d l) (hstep : adjustStep factor d g = Except.ok d1) :
    strValued d1 l := by
  intro g2 hg2 w hw
  by_cases hgg : g2 = g
  · subst hgg
    unfold adjustStep at hstep
    cases hval : dictLookup d g2 with
    | none =>
        rw [hval] at hstep
        simp only [Except.ok.injEq] at hstep
        subst hstep
        exact hd g2 hg2 w hw
    | some w0 =>
        obtain ⟨s, rfl⟩ := hd g2 hg2 w0 hval
        rw [hval] at hstep
        simp only [Except.ok.injEq] at hstep
        subst hstep
        rw [dictLookup_dictSet_self] at hw
        exact ⟨adjustValue factor s, by injection hw with h2; exact h2.symm⟩
  · rw [adjustStep_ok_lookup_ne factor d d1 g g2 hstep hgg] at hw
    exact hd g2 hg2 w hw

/-- The adjust_for_portion loop never raises on a string-valued dict. -/
lemma adjustFields_ok (factor : Rat) (l : List String) : ∀ d : PyDict, strValued d l →
    ∃ d2, adjustFields factor d l = Except.ok d2 := by
  induction l with
  | nil => intro d _; exact ⟨d, rfl⟩
  | cons g rest ih =>
      intro d h
      obtain ⟨d1, hstep⟩ := adjustStep_ok factor d g (h g (List.mem_cons_self g rest))
      have hrest : strValued d1 rest :=
        strValued_adjustStep factor d d1 g rest
          (fun g2 hg2 w hw => h g2 (List.mem_cons_of_mem g hg2) w hw) hstep
      obtain ⟨d2, h2⟩ := ih d1 hrest
      refine ⟨d2, ?_⟩
      unfold adjustFields
      rw [hstep]
      exact h2

/-- Keys outside the processed field list are untouched by the loop. -/
lemma adjustFields_lookup_not_mem (factor : Rat) (l : List String) :
    ∀ (d d2 : PyDict) (k : String),
    adjustFields factor d l = Except.ok d2 → k ∉ l → dictLookup d2 k = dictLookup d k := by
  induction l with
  | nil =>
      intro d d2 k h _
      unfold adjustFields at h
      simp only [Except.ok.injEq] at h
      subst h; rfl
  | cons g rest ih =>
      intro d d2 k h hk
      unfold adjustFields at h
      cases hstep : adjustStep factor d g with
      | ok d1 =>
          rw [hstep] at h
          have h1 := ih d1 d2 k h (fun hm => hk (List.mem_cons_of_mem g hm))
          have h2 := adjustStep_ok_lookup_ne factor d d1 g k hstep
            (fun e => hk (e ▸ List.mem_cons_self g rest))
          rw [h1, h2]
      | error e => rw [hstep] at h; simp at h

/-- A processed string-valued field ends up rewritten by adjustValue. -/
lemma adjustFields_lookup_mem (factor : Rat) (l : List String) :
    ∀ (d d2 : PyDict) (k : String) (v : String),
    l.Nodup → k ∈ l → dictLookup d k = some (JVal.jstr v) →
    adjustFields factor d l = Except.ok d2 →
    dictLookup d2 k = some (JVal.jstr (adjustValue factor v)) := by
  induction l with
  | nil => intro d d2 k v _ hk; exact absurd hk (List.not_mem_nil k)
  | cons g rest ih =>
      intro d d2 k v hnd hk hv h
      obtain ⟨hgr, hndr⟩ := List.nodup_cons.mp hnd
      unfold adjustFields at h
      by_cases hkg : k = g
      · subst hkg
        have hstep : adjustStep factor d k = Except.ok (dictSet d k (JVal.jstr (adjustValue factor v))) := by
          unfold adjustStep; rw [hv]
        rw [hstep] at h
        have hnm := adjustFields_lookup_not_mem factor rest _ d2 k h hgr
        rw [hnm, dictLookup_dictSet_self]
      · have hkrest : k ∈ rest := (List.mem_cons.mp hk).resolve_left hkg
        cases hstep : adjustStep factor d g with
        | ok d1 =>
            rw [hstep] at h
            have hv1 : dictLookup d1 k = some (JVal.jstr v) :=
              (adjustStep_ok_lookup_ne factor d d1 g k hstep hkg).trans hv
            exact ih d1 d2 k v hndr hkrest hv1 h
        | error e => rw [hstep] at h; simp at h

/-- Every value of a fallback bundle is a string. -/
lemma get_fallback_values_jstr (food portion now : String) :
    ∀ q ∈ get_fallback_nutrition food portion now, ∃ s, q.2 = JVal.jstr s := by
  intro q hq
  simp only [get_fallback_nutrition, List.mem_cons, List.not_mem_nil, or_false] at hq
  rcases hq with rfl | rfl | rfl | rfl | rfl | rfl | rfl | rfl | rfl | rfl | rfl | rfl
  all_goals exact ⟨_, rfl⟩

/-- Lookup in an all-string dict yields a string. -/
lemma lookup_all_jstr : ∀ d : PyDict, (∀ q ∈ d, ∃ s, q.2 = JVal.jstr s) →
    ∀ k w, dictLookup d k = some w → ∃ s, w = JVal.jstr s := by
  intro d
  induction d with
  | nil => intro _ k w h; simp [dictLookup] at h
  | cons p rest ih =>
      intro hall k w h
      obtain ⟨k0, w0⟩ := p
      by_cases hk : k = k0
      · simp only [dictLookup, if_pos hk] at h
        obtain ⟨s, hs⟩ := hall (k0, w0) (List.mem_cons_self _ _)
        injection h with h2
        exact ⟨s, by rw [← h2]; exact hs⟩
      · simp only [dictLookup, if_neg hk] at h
        exact ih (fun q hq => hall q (List.mem_cons_of_mem _ hq)) k w h

/-- A matched number token always parses to a non-negative value. -/
lemma parseNumTok_nonneg (t : String) : 0 ≤ parseNumTok t := by
  unfold parseNumTok
  positivity

/-- The text-reading extractor is non-negative on every string: the regex
keeps no sign, the quirk recorded in the specification. -/
lemma extract_number_jstr_nonneg (s : String) : 0 ≤ DeepseekApi.extract_number (JVal.jstr s) := by
  cases h : findFirstNum s with
  | some t =>
      simp only [DeepseekApi.extract_number, h]
      exact parseNumTok_nonneg t
  | none => simp [DeepseekApi.extract_number, h]

/-- The numeric fields of a nutrient bundle. -/
def bundleNumericFields : List String :=
  ["calories", "protein", "fat", "carbs", "fiber", "sugar", "sodium"]

/-- The NutrientBundle invariant of the specification: the source field is
set and every numeric field present reads as a non-negative value. -/
def bundleInvariant (d : PyDict) : Prop :=
  (dictLookup d "source").isSome = true ∧
  ∀ k ∈ bundleNumericFields, ∀ w, dictLookup d k = some w →
    0 ≤ DeepseekApi.extract_number w

/-- C1.  For every credential state, food name, portion label and outcome of
the remote call (network or timeout exception, non-200 status, malformed
body, undecodable content, decoded dict or non-dict), analyze_food_nutrition
catches every exception its try-block can raise and returns a bundle: no
error escapes the resolver. -/
theorem claim_C1 (api_key : Option String) (food portion now : String) (o : CallOutcome) :
    ∃ d, analyze_food_nutrition api_key food portion now o = Except.ok d := by
  unfold analyze_food_nutrition
  by_cases h : is_available api_key = false
  · rw [if_pos h]; exact ⟨_, rfl⟩
  · rw [if_neg h]
    cases ht : analyzeTry food portion now o with
    | ok d => exact ⟨d, rfl⟩
    | error e => exact ⟨_, rfl⟩

/-- C2.  The claim says extract_nutrition_from_text never raises and returns
a regex-extracted or default-filled bundle; the code instead raises
NameError on every input, because the module never imports datetime while
the function's dict literal calls datetime.now().  Evaluated here at one
concrete input. -/
theorem claim_C2 :
    extract_nutrition_from_text "Kalori: 250 kcal, protein: 10 g" "nasi goreng" "normal"
      = Except.error PyErr.nameError := rfl

/-- C3.  With no usable credential the resolver returns the local fallback
bundle at once: the result carries the fallback source tag (the literal
the specification's enum calls estimated) and is independent of the remote
call's outcome, which is how the absence of network I/O shows up in this
embedding. -/
theorem claim_C3 (api_key : Option String) (food portion now : String)
    (o o2 : CallOutcome) (h : is_available api_key = false) :
    analyze_food_nutrition api_key food portion now o
      = Except.ok (get_fallback_nutrition food portion now)
  ∧ analyze_food_nutrition api_key food portion now o
      = analyze_food_nutrition api_key food portion now o2
  ∧ dictLookup (get_fallback_nutrition food portion now) "source"
      = some (JVal.jstr "fallback_estimation") := by
  have e : ∀ oo, analyze_food_nutrition api_key food portion now oo
      = Except.ok (get_fallback_nutrition food portion now) := by
    intro oo; simp [analyze_food_nutrition, h]
  exact ⟨e o, (e o).trans (e o2).symm, rfl⟩

/-- Witness for C3 at a concrete unavailable credential state. -/
theorem claim_C3_witness :
    analyze_food_nutrition none "nasi goreng" "normal" "t" CallOutcome.exc
      = Except.ok (get_fallback_nutrition "nasi goreng" "normal" "t")
  ∧ analyze_food_nutrition none "nasi goreng" "normal" "t" CallOutcome.exc
      = analyze_food_nutrition none "nasi goreng" "normal" "t"
          (CallOutcome.resp 500 BodyResult.badBody)
  ∧ dictLookup (get_fallback_nutrition "nasi goreng" "normal" "t") "source"
      = some (JVal.jstr "fallback_estimation") :=
  claim_C3 none "nasi goreng" "normal" "t" CallOutcome.exc
    (CallOutcome.resp 500 BodyResult.badBody) rfl

/-- C4.  The fallback estimator matches keyword sets in the fixed priority
order with the grain set tested first, so nasi goreng (which also contains
the fried keyword goreng) gets the grain base 250 kcal and 8 g protein at
factor 1.0, and ayam bakar at the small factor 0.7 gets 200 times 0.7 = 140
kcal; moreover any food name matching a grain keyword gets the grain base. -/
theorem claim_C4 (food now : String) (hg : matchAny (strLower food) grainWords = true) :
    dictLookup (get_fallback_nutrition "nasi goreng" "normal" now) "calories"
      = some (JVal.jstr "250 kcal")
  ∧ dictLookup (get_fallback_nutrition "nasi goreng" "normal" now) "protein"
      = some (JVal.jstr "8 g")
  ∧ dictLookup (get_fallback_nutrition "ayam bakar" "small" now) "calories"
      = some (JVal.jstr "140 kcal")
  ∧ fallbackBase (strLower food) = ⟨250, 8, 5, 45⟩ := by
  refine ⟨?_, ?_, ?_, ?_⟩
  · with_unfolding_all rfl
  · with_unfolding_all rfl
  · with_unfolding_all rfl
  · simp [fallbackBase, hg]

/-- Witness for C4 at the grain-matching name of the claim. -/
theorem claim_C4_witness :
    matchAny (strLower "nasi goreng") grainWords = true
  ∧ dictLookup (get_fallback_nutrition "nasi goreng" "normal" "t") "calories"
      = some (JVal.jstr "250 kcal")
  ∧ fallbackBase (strLower "nasi goreng") = ⟨250, 8, 5, 45⟩ :=
  ⟨rfl, (claim_C4 "nasi goreng" "t" rfl).1, (claim_C4 "nasi goreng" "t" rfl).2.2.2⟩

/-- C5 counterexample.  The claim says the extractor parses the first
maximal digit run of every text input, which would read 1.0 out of this
string; database.extract_number instead concatenates every digit in the
whole string and reads 12.0, so the two cited implementations disagree and
the claim fails on the database one. -/
theorem claim_C5_cex :
    Database.extract_number (JVal.jstr "1 a 2") = 12
  ∧ DeepseekApi.extract_number (JVal.jstr "1 a 2") = 1
  ∧ Database.extract_number (JVal.jstr "1 a 2")
      ≠ DeepseekApi.extract_number (JVal.jstr "1 a 2") := by
  with_unfolding_all decide

/-- C5 as amended.  Both extractors return numeric input as a float and both
satisfy the three cited examples; the deepseek_api one parses the first
maximal digit run with at most one decimal point (0.0 when there is none),
while the database one filters the whole string down to its digits and dots
and parses that, with 0.0 on failure. -/
theorem claim_C5 :
    (∀ q : Rat, DeepseekApi.extract_number (JVal.jnum q) = q
      ∧ Database.extract_number (JVal.jnum q) = q)
  ∧ (∀ s : String, DeepseekApi.extract_number (JVal.jstr s)
      = match findFirstNum s with
        | some t => parseNumTok t
        | none => 0)
  ∧ (∀ s : String, Database.extract_number (JVal.jstr s)
      = match pyFloatOfDigitsDots (String.mk (s.data.filter (fun c => c.isDigit || c == '.'))) with
        | some q => q
        | none => 0)
  ∧ DeepseekApi.extract_number (JVal.jstr "250 kcal") = 250
  ∧ Database.extract_number (JVal.jstr "250 kcal") = 250
  ∧ DeepseekApi.extract_number (JVal.jstr "") = 0
  ∧ Database.extract_number (JVal.jstr "") = 0
  ∧ DeepseekApi.extract_number (JVal.jnum 42) = 42
  ∧ Database.extract_number (JVal.jnum 42) = 42 := by
  refine ⟨fun q => ⟨rfl, rfl⟩, fun s => rfl, fun s => rfl, ?_, ?_, ?_, ?_, rfl, rfl⟩
  · with_unfolding_all decide
  · with_unfolding_all decide
  · with_unfolding_all decide
  · with_unfolding_all decide

/-- Written from the claim's words, for comparison with the code: the
original unit of a value string, i.e. what remains after the leading
numeric token, stripped. -/
def claimUnitSuffix (v : String) : String :=
  match findFirstNum v with
  | some t => strStrip (String.mk ((v.data.dropWhile (fun c => !c.isDigit)).drop t.data.length))
  | none => ""

/-- C6 counterexample.  The code extracts the unit by deleting every
occurrence of the matched token from the value, not by taking the suffix
after the leading token: on the value 200 kcal 200 the original unit
suffix is kcal 200, yet the adjusted field reads 260.0 kcal, so the claim's
description (one decimal followed by the original unit) fails here. -/
theorem claim_C6_cex :
    adjust_for_portion [("calories", JVal.jstr "200 kcal 200")] "large"
      = Except.ok [("calories", JVal.jstr "260.0 kcal")]
  ∧ claimUnitSuffix "200 kcal 200" = "kcal 200"
  ∧ "260.0 kcal" ≠ "260.0" ++ " " ++ claimUnitSuffix "200 kcal 200" := by
  refine ⟨by with_unfolding_all rfl, by with_unfolding_all decide, by with_unfolding_all decide⟩

/-- C6 as amended.  For a factor other than 1.0 and a nutrient field whose
string value contains a numeric token, provided every present nutrient
field is string-valued (otherwise the loop raises TypeError), the adjuster
succeeds and rewrites the field to the token value times the factor at one
decimal, a space, and the value with every occurrence of the token removed
and stripped — which is the original unit suffix whenever the token occurs
only once, as in the cited example. -/
theorem claim_C6 (d : PyDict) (portion_label field v n : String)
    (hfield : field ∈ nutrient_fields)
    (hfac : factorOf portion_label ≠ 1)
    (hv : dictLookup d field = some (JVal.jstr v))
    (hn : findFirstNum v = some n)
    (hstr : strValued d nutrient_fields) :
    adjust_for_portion [("calories", JVal.jstr "200 kcal")] "large"
      = Except.ok [("calories", JVal.jstr "260.0 kcal")]
  ∧ ∃ d2, adjust_for_portion d portion_label = Except.ok d2
      ∧ dictLookup d2 field
          = some (JVal.jstr (formatRat1 (parseNumTok n * factorOf portion_label) ++ " "
              ++ strStrip (strReplace v n ""))) := by
  refine ⟨by with_unfolding_all rfl, ?_⟩
  obtain ⟨d2, hd2⟩ := adjustFields_ok (factorOf portion_label) nutrient_fields d hstr
  refine ⟨d2, ?_, ?_⟩
  · unfold adjust_for_portion
    rw [if_neg hfac]
    exact hd2
  · have hlook := adjustFields_lookup_mem (factorOf portion_label) nutrient_fields d d2 field v
      (by decide) hfield hv hd2
    rw [hlook]
    simp [adjustValue, hn]

/-- Witness for C6 at the cited example bundle. -/
theorem claim_C6_witness :
    adjust_for_portion [("calories", JVal.jstr "200 kcal")] "large"
      = Except.ok [("calories", JVal.jstr "260.0 kcal")]
  ∧ ∃ d2, adjust_for_portion [("calories", JVal.jstr "200 kcal")] "large" = Except.ok d2
      ∧ dictLookup d2 "calories"
          = some (JVal.jstr (formatRat1 (parseNumTok "200" * factorOf "large") ++ " "
              ++ strStrip (strReplace "200 kcal" "200" ""))) := by
  have hstr0 : strValued [("calories", JVal.jstr "200 kcal")] nutrient_fields := by
    intro g hg w hw
    by_cases hgc : g = "calories"
    · subst hgc
      simp only [dictLookup, if_pos rfl] at hw
      exact ⟨"200 kcal", by injection hw with h2; exact h2.symm⟩
    · simp [dictLookup, hgc] at hw
  exact claim_C6 [("calories", JVal.jstr "200 kcal")] "large" "calories" "200 kcal" "200"
    (by decide) (by with_unfolding_all decide) rfl (by with_unfolding_all rfl) hstr0

/-- C7.  A portion label whose lower-casing is outside the six synonyms gets
the default factor 1.0 in both tables, and the portion adjuster then
returns its input bundle unchanged. -/
theorem claim_C7 (portion_label : String)
    (h : strLower portion_label ∉
      (["small", "kecil", "normal", "sedang", "large", "besar"] : List String)) :
    factorOf portion_label = 1
  ∧ fallbackFactorOf portion_label = 1
  ∧ ∀ d, adjust_for_portion d portion_label = Except.ok d := by
  simp only [List.mem_cons, List.not_mem_nil, or_false, not_or] at h
  obtain ⟨h1, h2, h3, h4, h5, h6⟩ := h
  have hf : factorOf portion_label = 1 := by
    simp [factorOf, lookupRat, portion_factors, h1, h2, h3, h4, h5, h6]
  have hff : fallbackFactorOf portion_label = 1 := by
    simp [fallbackFactorOf, lookupRat, fallback_portion_factors, h1, h2, h3, h4, h5, h6]
  exact ⟨hf, hff, fun d => by simp [adjust_for_portion, hf]⟩

/-- Witness for C7 at an unrecognized label. -/
theorem claim_C7_witness :
    factorOf "jumbo" = 1
  ∧ fallbackFactorOf "jumbo" = 1
  ∧ adjust_for_portion [("calories", JVal.jstr "100 kcal")] "jumbo"
      = Except.ok [("calories", JVal.jstr "100 kcal")] := by
  have h := claim_C7 "jumbo" (by with_unfolding_all decide)
  exact ⟨h.1, h.2.1, h.2.2 _⟩

/-- C8 counterexample.  A 200 response whose content decodes to the empty
JSON object is passed through by the resolver with only analyzed_at added:
the returned bundle has no source field at all, refuting the claim that
every bundle returned by resolve satisfies the invariant. -/
theorem claim_C8_cex :
    analyze_food_nutrition (some hardcodedApiKey) "nasi" "normal" "T"
        (CallOutcome.resp 200 (BodyResult.content "\x7b\x7d" (DecodeResult.dict [])))
      = Except.ok [("analyzed_at", JVal.jstr "T")]
  ∧ ¬ bundleInvariant [("analyzed_at", JVal.jstr "T")] := by
  refine ⟨by with_unfolding_all rfl, ?_⟩
  intro h
  unfold bundleInvariant at h
  exact absurd h.1 (by decide)

/-- C8 as amended.  Bundles from the local fallback always satisfy the
invariant (source set, numeric fields non-negative); the text-extraction
stage never produces a bundle at all, raising NameError instead; a decoded
remote payload is returned as the model sent it, so no invariant holds on
that path (see the counterexample). -/
theorem claim_C8 (food portion now : String) :
    bundleInvariant (get_fallback_nutrition food portion now)
  ∧ ∀ text f p, extract_nutrition_from_text text f p = Except.error PyErr.nameError := by
  refine ⟨?_, fun text f p => rfl⟩
  unfold bundleInvariant
  refine ⟨rfl, ?_⟩
  intro k hk w hw
  obtain ⟨s, rfl⟩ := lookup_all_jstr _ (get_fallback_values_jstr food portion now) k w hw
  exact extract_number_jstr_nonneg s

/-- Witness for C8 at a concrete fallback bundle. -/
theorem claim_C8_witness :
    bundleInvariant (get_fallback_nutrition "nasi goreng" "normal" "t") :=
  (claim_C8 "nasi goreng" "normal" "t").1

/-- C9.  No embedded NutritionDatabase operation propagates a datastore
error: each returns its falsy value instead (create_user returns None, also
on a duplicate email; update, add and delete return False; list operations
return the empty list), and authenticate_user returns None when no stored
row matches the email or when no stored hash matches the given password. -/
theorem claim_C9 (hashFn : String → String) (st : DbStore)
    (email password name now : String) (uid eid : Nat)
    (kwargs : List (String × JVal)) (entry : EntryData) (dateQ : Option String) :
    (create_user hashFn st true email password name now).1 = none
  ∧ ((∃ u ∈ st.users, dictLookup u "email" = some (JVal.jstr email)) →
      (create_user hashFn st false email password name now).1 = none)
  ∧ (update_user_profile st true uid kwargs).1 = false
  ∧ (add_daily_entry st true uid entry now).1 = false
  ∧ (delete_entry st true uid eid).1 = false
  ∧ get_daily_entries st true uid dateQ = []
  ∧ (authenticate_user hashFn st true email password now).1 = none
  ∧ ((∀ u ∈ st.users, dictLookup u "email" ≠ some (JVal.jstr email)) →
      (authenticate_user hashFn st false email password now).1 = none)
  ∧ ((∀ u ∈ st.users, dictLookup u "password_hash" ≠ some (JVal.jstr (hashFn password))) →
      (authenticate_user hashFn st false email password now).1 = none) := by
  refine ⟨rfl, ?_, rfl, rfl, rfl, rfl, rfl, ?_, ?_⟩
  · rintro ⟨u, hu, he⟩
    have hb : st.users.any
        (fun u => decide (dictLookup u "email" = some (JVal.jstr email))) = true := by
      rw [List.any_eq_true]
      exact ⟨u, hu, decide_eq_true he⟩
    simp [create_user, hb]
  · intro h
    have hfind : st.users.find? (fun u =>
        decide (dictLookup u "email" = some (JVal.jstr email)) &&
        decide (dictLookup u "password_hash" = some (JVal.jstr (hashFn password)))) = none := by
      rw [List.find?_eq_none]
      intro u hu
      have hde : decide (dictLookup u "email" = some (JVal.jstr email)) = false :=
        decide_eq_false (h u hu)
      simp [hde]
    simp [authenticate_user, hfind]
  · intro h
    have hfind : st.users.find? (fun u =>
        decide (dictLookup u "email" = some (JVal.jstr email)) &&
        decide (dictLookup u "password_hash" = some (JVal.jstr (hashFn password)))) = none := by
      rw [List.find?_eq_none]
      intro u hu
      have hdp : decide (dictLookup u "password_hash" = some (JVal.jstr (hashFn password))) = false :=
        decide_eq_false (h u hu)
      simp [hdp]
    simp [authenticate_user, hfind]

/-- A one-user store used to witness the database theorems. -/
def demoUserRow : PyDict := newUserRow 1 "demo@example.com" "demo123" "Demo User" "2026-01-01"

/-- The store holding only demoUserRow. -/
def demoStore : DbStore :=
  { users := [demoUserRow], entries := [], nextUserId := 2, nextEntryId := 1, clock := 5 }

/-- An entry_data dict with every optional key absent. -/
def demoEntryData : EntryData :=
  { date := none, food := none, portion := none, portion_grams := none,
    nutrition := none, water := none, exercise := none }

/-- Witness for C9 on the one-user store, with the identity as hash
stand-in: every falsy return is exercised, including the duplicate email,
the wrong email and the wrong password. -/
theorem claim_C9_witness :
    (create_user (fun s => s) demoStore true "demo@example.com" "pw" "N" "d").1 = none
  ∧ (create_user (fun s => s) demoStore false "demo@example.com" "pw" "N" "d").1 = none
  ∧ (update_user_profile demoStore true 1 []).1 = false
  ∧ (add_daily_entry demoStore true 1 demoEntryData "d").1 = false
  ∧ (delete_entry demoStore true 1 1).1 = false
  ∧ get_daily_entries demoStore true 1 none = []
  ∧ (authenticate_user (fun s => s) demoStore true "demo@example.com" "demo123" "d").1 = none
  ∧ (authenticate_user (fun s => s) demoStore false "other@example.com" "demo123" "d").1 = none
  ∧ (authenticate_user (fun s => s) demoStore false "demo@example.com" "wrong" "d").1 = none := by
  have h1 := claim_C9 (fun s => s) demoStore "demo@example.com" "pw" "N" "d" 1 1 [] demoEntryData none
  have h2 := claim_C9 (fun s => s) demoStore "other@example.com" "demo123" "N" "d" 1 1 [] demoEntryData none
  have h3 := claim_C9 (fun s => s) demoStore "demo@example.com" "wrong" "N" "d" 1 1 [] demoEntryData none
  refine ⟨h1.1, h1.2.1 ?_, h1.2.2.1, h1.2.2.2.1, h1.2.2.2.2.1, h1.2.2.2.2.2.1,
    h1.2.2.2.2.2.2.1, h2.2.2.2.2.2.2.2.1 ?_, h3.2.2.2.2.2.2.2.2 ?_⟩
  · exact ⟨demoUserRow, by simp [demoStore], by with_unfolding_all decide⟩
  · with_unfolding_all decide
  · with_unfolding_all decide

/-- C10.  The constructor ignores its api_key argument and installs the
hardcoded credential, so is_available holds for every constructed instance
and analyze_food_nutrition on such an instance always bypasses the
credential-missing branch and runs the try-block. -/
theorem claim_C10 (a b : Option String) :
    (DeepSeekNutritionAPI.init a).api_key = some hardcodedApiKey
  ∧ DeepSeekNutritionAPI.init a = DeepSeekNutritionAPI.init b
  ∧ is_available (DeepSeekNutritionAPI.init a).api_key = true
  ∧ ∀ food portion now o,
      analyze_food_nutrition (DeepSeekNutritionAPI.init a).api_key food portion now o
        = match analyzeTry food portion now o with
          | Except.ok d => Except.ok d
          | Except.error _ => Except.ok (get_fallback_nutrition food portion now) := by
  refine ⟨rfl, rfl, rfl, ?_⟩
  intro food portion now o
  have hA : is_available (DeepSeekNutritionAPI.init a).api_key = true := rfl
  simp [analyze_food_nutrition, hA]

/-- Witness for C10 at a concrete constructor argument. -/
theorem claim_C10_witness :
    is_available (DeepSeekNutritionAPI.init (some "ignored")).api_key = true :=
  (claim_C10 (some "ignored") none).2.2.1

/-- Witness for C1 at a concrete outcome. -/
theorem claim_C1_witness :
    ∃ d, analyze_food_nutrition none "nasi goreng" "normal" "t" CallOutcome.exc
      = Except.ok d :=
  claim_C1 none "nasi goreng" "normal" "t" CallOutcome.exc
